import Mathlib

/-!
Verification of the moderation decision and emission pipeline of the
pef-forum-moderation repository: a shallow embedding of the session manager
(pds_session), the REST executor retry loops of bsky::client, and the embed
checker / redirect follower of bsky::moderation, with theorems settling the
specified properties.

Machine integers are modelled as Nat/Int; time instants and durations are
integers in milliseconds; byte strings (URLs) are lists of byte values; the
HTTP transport is abstracted as explicit inputs (a script of per-attempt
outcomes, or result-valued functions standing for the remote endpoints).
-/

namespace bsky

/-! ## Session manager (src/unnamed/part_000, bsky::pds_session)

`session_tokens`, `login_info` mirror the adapted structs; the JWT decoder
(jwt::decode + get_expires_at) is abstracted as a function from the token
string to its expiry instant; the createSession and refreshSession endpoints
are abstracted as result-valued functions. -/

structure session_tokens where
  accessJwt : String
  refreshJwt : String
deriving DecidableEq

structure login_info where
  identifier : String
  password : String
deriving DecidableEq

structure pds_session_state where
  credentials : login_info
  tokens : session_tokens
  accessExpiry : Int
  refreshExpiry : Int
deriving DecidableEq

/-- The marker `pds_session::check_refresh` looks for in the text of the
exception raised by a failed refreshSession POST. -/
def invalid_token_marker : String := "\x22error\x22:\x22InvalidToken\x22"

/-- Contiguous-subsequence search over lists, used to model
`std::string_view::contains`. -/
def contains_seq {α : Type} [BEq α] (pat : List α) : List α → Bool
  | [] => pat.isEmpty
  | l@(_ :: rest) => pat.isPrefixOf l || contains_seq pat rest

/-- Mirrors `std::string_view(exc.what()).contains(...)` in
`pds_session::check_refresh`. -/
def contains_invalid_token (msg : String) : Bool :=
  contains_seq invalid_token_marker.toList msg.toList

/-- `pds_session::internal_connect`: POST createSession with the stored
credentials, then decode both JWTs and record their expiry instants. -/
def internal_connect (decode : String → Int)
    (createSession : login_info → Except String session_tokens)
    (st : pds_session_state) : Except String pds_session_state :=
  match createSession st.credentials with
  | .error e => .error e
  | .ok toks =>
      .ok { st with tokens := toks, accessExpiry := decode toks.accessJwt,
                    refreshExpiry := decode toks.refreshJwt }

/-- Observable effects of one `pds_session::check_refresh` call. -/
structure refreshOutcome where
  newState : pds_session_state
  refreshCalls : Nat
  connectCalls : Nat
  skipLogged : Bool
  refreshBearer : Option String
deriving DecidableEq

/-- `pds_session::check_refresh`, transcribed from src/unnamed/part_000
lines 60-104.  The empty-refresh-token check only logs (no early return).
The refresh triggers when the access expiry is in the past or the time to
expiry is below the buffer.  On a refresh failure whose message carries the
InvalidToken marker, one full reconnect (createSession) runs; any other
failure propagates. -/
def check_refresh (buffer now : Int) (decode : String → Int)
    (createSession : login_info → Except String session_tokens)
    (refreshSession : String → Except String session_tokens)
    (st : pds_session_state) : Except String refreshOutcome :=
  let skipLogged := st.tokens.refreshJwt == ""
  let time_to_expiry := st.accessExpiry - now
  if st.accessExpiry < now ∨ time_to_expiry < buffer then
    match refreshSession st.tokens.refreshJwt with
    | .ok toks =>
        .ok ⟨{ st with tokens := toks, accessExpiry := decode toks.accessJwt,
                       refreshExpiry := decode toks.refreshJwt },
             1, 0, skipLogged, some st.tokens.refreshJwt⟩
    | .error msg =>
        if contains_invalid_token msg then
          match internal_connect decode createSession st with
          | .ok st2 => .ok ⟨st2, 1, 1, skipLogged, some st.tokens.refreshJwt⟩
          | .error e => .error e
        else .error msg
  else .ok ⟨st, 0, 0, skipLogged, none⟩

/-! ## REST executor retry loops (src/include/common/bluesky/client.hpp)

Each HTTP attempt of a call is abstracted as a scripted outcome: success
with a response value, the transient asio read-EOF system_error, some other
boost system_error, or some other std::exception.  Each operation of
bsky::client is transcribed as a recursion over its script, mirroring its
`while (retries < 5)` loop. -/

inductive attempt (α : Type) where
  | success (v : α)
  | eofFault
  | boostFault (msg : String)
  | excFault (msg : String)
deriving DecidableEq

inductive callResult (α : Type) where
  | ok (v : α)
  | thrown (msg : String)
deriving DecidableEq

def eofMsg : String := "asio eof"

/-- `client::do_post` (client.hpp lines 528-607): on EOF, `++retries` and
throw once the count reaches 5; any other exception is rethrown; success
breaks.  An exhausted script models the (unreachable for do_post) normal
loop exit, which returns the response default. -/
def do_post_run {α : Type} (retries : Nat) (dflt : α) :
    List (attempt α) → callResult α
  | [] => .ok dflt
  | .success v :: _ => .ok v
  | .eofFault :: rest =>
      if retries + 1 ≥ 5 then .thrown eofMsg else do_post_run (retries + 1) dflt rest
  | .boostFault m :: _ => .thrown m
  | .excFault m :: _ => .thrown m

/-- `client::get_record` (client.hpp lines 236-297): same policy as
`do_post` — on the fifth EOF the error is rethrown. -/
def get_record_run {α : Type} (retries : Nat) (dflt : α) :
    List (attempt α) → callResult α
  | [] => .ok dflt
  | .success v :: _ => .ok v
  | .eofFault :: rest =>
      if retries + 1 ≥ 5 then .thrown eofMsg else get_record_run (retries + 1) dflt rest
  | .boostFault m :: _ => .thrown m
  | .excFault m :: _ => .thrown m

/-- `client::create_record` (client.hpp lines 175-234): on EOF, `++retries`
with no throw at the cap — after the fifth EOF the `while (retries < 5)`
guard fails and the default-initialized response is returned; other
exceptions are rethrown. -/
def create_record_run {α : Type} (retries : Nat) (dflt : α) :
    List (attempt α) → callResult α
  | [] => .ok dflt
  | .success v :: _ => .ok v
  | .eofFault :: rest =>
      if retries + 1 ≥ 5 then .ok dflt else create_record_run (retries + 1) dflt rest
  | .boostFault m :: _ => .thrown m
  | .excFault m :: _ => .thrown m

/-- `client::put_record` (client.hpp lines 299-357): same loop-exit
behaviour as `create_record`. -/
def put_record_run {α : Type} (retries : Nat) (dflt : α) :
    List (attempt α) → callResult α
  | [] => .ok dflt
  | .success v :: _ => .ok v
  | .eofFault :: rest =>
      if retries + 1 ≥ 5 then .ok dflt else put_record_run (retries + 1) dflt rest
  | .boostFault m :: _ => .thrown m
  | .excFault m :: _ => .thrown m

/-- `client::do_get` (client.hpp lines 465-523): same loop-exit behaviour
as `create_record`. -/
def do_get_run {α : Type} (retries : Nat) (dflt : α) :
    List (attempt α) → callResult α
  | [] => .ok dflt
  | .success v :: _ => .ok v
  | .eofFault :: rest =>
      if retries + 1 ≥ 5 then .ok dflt else do_get_run (retries + 1) dflt rest
  | .boostFault m :: _ => .thrown m
  | .excFault m :: _ => .thrown m

/-- `client::emit_event` (client.hpp lines 614-685), also tracking how many
HTTP POST attempts were issued: same loop-exit behaviour as
`create_record`. -/
def emit_event_run {α : Type} (retries attempts : Nat) (dflt : α) :
    List (attempt α) → callResult α × Nat
  | [] => (.ok dflt, attempts)
  | .success v :: _ => (.ok v, attempts + 1)
  | .eofFault :: rest =>
      if retries + 1 ≥ 5 then (.ok dflt, attempts + 1)
      else emit_event_run (retries + 1) (attempts + 1) dflt rest
  | .boostFault m :: _ => (.thrown m, attempts + 1)
  | .excFault m :: _ => (.thrown m, attempts + 1)

/-- Observable effects of one `client::send_report` call. -/
structure send_report_result where
  notReadyLogged : Bool
  dryRunLogged : Bool
  httpAttempts : Nat
  reportCounted : Bool
  reportErrorCounted : Bool
deriving DecidableEq

/-- The retry loop of `client::send_report` (client.hpp lines 385-453):
returns whether `done` was set (success) and the number of POST attempts.
Non-EOF exceptions are logged and break the loop without rethrowing. -/
def send_report_loop (retries attempts : Nat) :
    List (attempt Unit) → Bool × Nat
  | [] => (false, attempts)
  | .success _ :: _ => (true, attempts + 1)
  | .eofFault :: rest =>
      if retries + 1 ≥ 5 then (false, attempts + 1)
      else send_report_loop (retries + 1) (attempts + 1) rest
  | .boostFault _ :: _ => (false, attempts + 1)
  | .excFault _ :: _ => (false, attempts + 1)

/-- `client::send_report` (client.hpp lines 359-460).  The not-ready check
logs an error but does not return; the dry-run check returns before the
HTTP loop; when the loop ends without `done`, the report_error counter is
incremented. -/
def send_report_run (is_ready dry_run : Bool) (script : List (attempt Unit)) :
    send_report_result :=
  let notReadyLogged := !is_ready
  if dry_run then
    { notReadyLogged := notReadyLogged, dryRunLogged := true, httpAttempts := 0,
      reportCounted := false, reportErrorCounted := false }
  else
    let r := send_report_loop 0 0 script
    { notReadyLogged := notReadyLogged, dryRunLogged := false, httpAttempts := r.2,
      reportCounted := r.1, reportErrorCounted := !r.1 }

/-- Modelled from the spec: the typed emit callers (label_account,
acknowledge_subject, tag_report_subject, add_comment_for_subject) are only
declared in src/include/common/bluesky/client.hpp; their definitions are not
under src.  Spec 4.6 says a dry-run emission is short-circuited with an info
log and no HTTP call, so the guarded path runs `emit_event` only when
dry-run is off. -/
def guarded_emit_event {α : Type} (dry_run : Bool) (dflt : α)
    (script : List (attempt α)) : callResult α × Nat :=
  if dry_run then (.ok dflt, 0) else emit_event_run 0 0 dflt script

/-! ## Embed checker and redirect follower (src/unnamed/part_000,
bsky::moderation::embed_checker / embed_handler)

URIs are byte strings, modelled as lists of byte values.  The boost URL
parser is abstracted as a function from the parsed text to its host (none
on a parse error); the rule matcher is abstracted as a function from the
root and redirected URL to the list of matched rules. -/

abbrev Url := List Nat

/-- The three-byte UTF-8 horizontal ellipsis stripped from truncated post
URLs (`UrlSuffix` in `embed_checker::should_process_uri`). -/
def UrlSuffix : Url := [0xe2, 0x80, 0xa6]

structure checker_config where
  hostPfx : Url
  whitelist : List Url

/-- Observable outcome of one `embed_checker::should_process_uri` call:
the returned Bool plus which of the two skip counters was incremented. -/
structure uri_decision where
  process : Bool
  malformedCounted : Bool
  whitelistSkipCounted : Bool
deriving DecidableEq

/-- `embed_checker::should_process_uri` (src/unnamed/part_000 lines
267-303): strip a trailing ellipsis suffix, parse, count and reject on a
parse error, strip the configured host prefix, reject hosts on the
whitelist. -/
def should_process_uri (parse : Url → Option Url) (cfg : checker_config)
    (uri : Url) : uri_decision :=
  let target := if UrlSuffix.isSuffixOf uri then
    uri.take (uri.length - UrlSuffix.length) else uri
  match parse target with
  | none => { process := false, malformedCounted := true, whitelistSkipCounted := false }
  | some host0 =>
      let host := if cfg.hostPfx.isPrefixOf host0 then
        host0.drop cfg.hostPfx.length else host0
      if cfg.whitelist.contains host then
        { process := false, malformedCounted := false, whitelistSkipCounted := true }
      else
        { process := true, malformedCounted := false, whitelistSkipCounted := false }

/-- Increments the stored count of a key in a counter map
(`++(inserted.first->second)` on an insert hit). -/
def bump_count (counts : List (Url × Nat)) (url : Url) : List (Url × Nat) :=
  counts.map fun p => if p.1 == url then (p.1, p.2 + 1) else p

/-- `embed_checker::uri_seen` (lines 244-265): try to insert the URI with
count 1; report whether it was already present and increment on a hit. -/
def uri_seen (counts : List (Url × Nat)) (url : Url) :
    Bool × List (Url × Nat) :=
  match counts.lookup url with
  | some _ => (true, bump_count counts url)
  | none => (false, (url, 1) :: counts)

/-- Observable effects of one `embed_handler::on_url_redirect` call. -/
structure redirect_callback_result where
  chain : List Url
  counts : List (Url × Nat)
  actionsEnqueued : Nat
  redirectionCounted : Bool
  matchCounted : Bool
  continueFollowing : Bool

/-- `embed_handler::on_url_redirect` (src/unnamed/part_000 lines 397-421),
transcribed as written: the next URL is appended to the chain, then the
callback returns false (stop following) when `uri_seen(url)` or
`should_process_uri(url)` holds — the source has no negation on
`should_process_uri`, unlike the admission check in
`operator()(embed::external)` at line 307 — and otherwise evaluates the
matcher on (root_url, url) and enqueues to the action router when any rule
matches. -/
def on_url_redirect (parse : Url → Option Url) (cfg : checker_config)
    (matcher : Url → Url → List String)
    (counts : List (Url × Nat)) (chain : List Url) (rootUrl : Url)
    (_code : Int) (url : Url) : redirect_callback_result :=
  let chain2 := chain ++ [url]
  let seen := uri_seen counts url
  if seen.1 || (should_process_uri parse cfg url).process then
    { chain := chain2, counts := seen.2, actionsEnqueued := 0,
      redirectionCounted := false, matchCounted := false, continueFollowing := false }
  else
    let results := matcher rootUrl url
    if results.isEmpty then
      { chain := chain2, counts := seen.2, actionsEnqueued := 0,
        redirectionCounted := true, matchCounted := false, continueFollowing := true }
    else
      { chain := chain2, counts := seen.2, actionsEnqueued := 1,
        redirectionCounted := true, matchCounted := true, continueFollowing := true }

/-- Where the single exception of a redirect-check GET materializes in
`embed_handler::operator()(embed::external)`: at the inner
`check_done.get()` (eof / other boost error / other exception), as the
restc ConstraintException for an exceeded redirect limit, as some other
outer exception, or not at all. -/
inductive fetch_outcome where
  | success
  | eofAtGet
  | boostOtherAtGet (msg : String)
  | excAtGet (msg : String)
  | constraintExceeded
  | outerExc (msg : String)
deriving DecidableEq

/-- Models the restc redirect machinery configured with
`properties.maxRedirects = limit` (embed_checker::start): a GET whose
redirect count exceeds the limit raises the ConstraintException, otherwise
the chain completes. -/
def redirect_outcome (hops : List Url) (limit : Nat) : fetch_outcome :=
  if limit < hops.length then .constraintExceeded else .success

/-- Observable effects of one `embed_handler::operator()(embed::external)`
call. -/
structure external_result where
  earlyReturn : Bool
  completedCount : Nat
  overflowCount : Nat
  errorCount : Nat
  reportsEnqueued : Nat
  reportChain : Option (List Url)
  hopsObserved : Option Nat
deriving DecidableEq

/-- `embed_handler::operator()(embed::external)` (src/unnamed/part_000
lines 305-395): return early when the URI was already seen or is not to be
processed; otherwise run the redirect check and record exactly one of the
three outcome counters (redirect_ok / redirect_limit_exceeded /
redirect_error), enqueue one account report carrying the URI chain on
overflow, and observe the chain length into the hops histogram.  The chain
holds the root plus the hops the redirect machinery followed (all of them
on completion, the first `limit` when the limit was exceeded). -/
def process_external (parse : Url → Option Url) (cfg : checker_config)
    (counts : List (Url × Nat)) (uri : Url) (hops : List Url) (limit : Nat)
    (outcome : fetch_outcome) : external_result :=
  let seen := uri_seen counts uri
  if seen.1 || !(should_process_uri parse cfg uri).process then
    { earlyReturn := true, completedCount := 0, overflowCount := 0, errorCount := 0,
      reportsEnqueued := 0, reportChain := none, hopsObserved := none }
  else
    let chain := uri :: (match outcome with
      | .constraintExceeded => hops.take limit
      | _ => hops)
    match outcome with
    | .success =>
        { earlyReturn := false, completedCount := 1, overflowCount := 0, errorCount := 0,
          reportsEnqueued := 0, reportChain := none, hopsObserved := some chain.length }
    | .constraintExceeded =>
        { earlyReturn := false, completedCount := 0, overflowCount := 1, errorCount := 0,
          reportsEnqueued := 1, reportChain := some chain, hopsObserved := some chain.length }
    | _ =>
        { earlyReturn := false, completedCount := 0, overflowCount := 0, errorCount := 1,
          reportsEnqueued := 0, reportChain := none, hopsObserved := some chain.length }

/-! ## Frequency counters and the alert predicate -/

/-- Modelled from the spec: `bsky::alert_needed` is called by
`embed_checker::image_seen`, `record_seen`, `uri_seen` and `video_seen`
(src/unnamed/part_000) but its definition is not under src.  Spec 4.5 and
8: alerts fire at geometrically increasing milestones, at counts factor^k
for k = 1, 2, 3, dots. -/
def alert_needed (new_count factor : Nat) : Bool :=
  (List.range new_count).any fun i => factor ^ (i + 1) == new_count

/-- A fixed content id, standing for one key observed repeatedly. -/
def cid0 : Url := [99]

/-- `embed_checker::image_seen` (src/unnamed/part_000 lines 194-213): the
first sight inserts the key with count 1 and performs no alert check; a
later sight increments the count and fires the alert exactly when
`alert_needed` holds at the new count. -/
def image_seen (counts : List (Url × Nat)) (cid : Url) (factor : Nat) :
    List (Url × Nat) × Bool :=
  match counts.lookup cid with
  | none => ((cid, 1) :: counts, false)
  | some n => (bump_count counts cid, alert_needed (n + 1) factor)

/-- Observing the key `cid0` n times through `image_seen`, starting from an
empty counter map: the final map and the number of alerts fired. -/
def image_seen_alerts (factor : Nat) : Nat → List (Url × Nat) × Nat
  | 0 => ([], 0)
  | n + 1 =>
      let prev := image_seen_alerts factor n
      let step := image_seen prev.1 cid0 factor
      (step.1, prev.2 + if step.2 then 1 else 0)

/-! ## Helper lemmas: reductions of check_refresh -/

theorem check_refresh_not_triggered (buffer now : Int) (decode : String → Int)
    (cs : login_info → Except String session_tokens)
    (rs : String → Except String session_tokens) (st : pds_session_state)
    (h : ¬(st.accessExpiry < now ∨ st.accessExpiry - now < buffer)) :
    check_refresh buffer now decode cs rs st =
      Except.ok ⟨st, 0, 0, st.tokens.refreshJwt == "", none⟩ := by
  simp only [check_refresh]
  rw [if_neg h]

theorem check_refresh_triggered_ok (buffer now : Int) (decode : String → Int)
    (cs : login_info → Except String session_tokens)
    (rs : String → Except String session_tokens) (st : pds_session_state)
    (toks : session_tokens)
    (h : st.accessExpiry < now ∨ st.accessExpiry - now < buffer)
    (hok : rs st.tokens.refreshJwt = Except.ok toks) :
    check_refresh buffer now decode cs rs st =
      Except.ok ⟨{ st with tokens := toks, accessExpiry := decode toks.accessJwt,
                           refreshExpiry := decode toks.refreshJwt },
                 1, 0, st.tokens.refreshJwt == "", some st.tokens.refreshJwt⟩ := by
  simp only [check_refresh]
  rw [if_pos h, hok]

theorem check_refresh_invalid_marker (buffer now : Int) (decode : String → Int)
    (cs : login_info → Except String session_tokens)
    (rs : String → Except String session_tokens) (st : pds_session_state)
    (msg : String) (ctoks : session_tokens)
    (h : st.accessExpiry < now ∨ st.accessExpiry - now < buffer)
    (herr : rs st.tokens.refreshJwt = Except.error msg)
    (hmark : contains_invalid_token msg = true)
    (hconn : cs st.credentials = Except.ok ctoks) :
    check_refresh buffer now decode cs rs st =
      Except.ok ⟨{ st with tokens := ctoks, accessExpiry := decode ctoks.accessJwt,
                           refreshExpiry := decode ctoks.refreshJwt },
                 1, 1, st.tokens.refreshJwt == "", some st.tokens.refreshJwt⟩ := by
  simp only [check_refresh, internal_connect]
  rw [if_pos h, herr]
  simp [hmark, hconn]

theorem check_refresh_other_error (buffer now : Int) (decode : String → Int)
    (cs : login_info → Except String session_tokens)
    (rs : String → Except String session_tokens) (st : pds_session_state)
    (msg : String)
    (h : st.accessExpiry < now ∨ st.accessExpiry - now < buffer)
    (herr : rs st.tokens.refreshJwt = Except.error msg)
    (hmark : contains_invalid_token msg = false) :
    check_refresh buffer now decode cs rs st = Except.error msg := by
  simp only [check_refresh]
  rw [if_pos h, herr]
  simp [hmark]

/-! ## Claim C4 -/

/-- Claim C4: when the refreshSession call fails with a message carrying
the server InvalidToken marker, `check_refresh` performs exactly one full
reconnect (createSession) with the stored credentials, after which the
session holds the freshly decoded tokens; a refresh failure without the
marker propagates to the caller unchanged. -/
theorem claim_C4_invalid_token_reconnect (buffer now : Int)
    (decode : String → Int)
    (cs : login_info → Except String session_tokens)
    (rs : String → Except String session_tokens) (st : pds_session_state)
    (msg : String) (ctoks : session_tokens)
    (htrig : st.accessExpiry < now ∨ st.accessExpiry - now < buffer)
    (herr : rs st.tokens.refreshJwt = Except.error msg)
    (hconn : cs st.credentials = Except.ok ctoks) :
    (contains_invalid_token msg = true →
      ∃ out, check_refresh buffer now decode cs rs st = Except.ok out ∧
        out.connectCalls = 1 ∧ out.refreshCalls = 1 ∧
        out.newState.tokens = ctoks ∧
        out.newState.accessExpiry = decode ctoks.accessJwt ∧
        out.newState.refreshExpiry = decode ctoks.refreshJwt ∧
        out.newState.credentials = st.credentials) ∧
    (contains_invalid_token msg = false →
      check_refresh buffer now decode cs rs st = Except.error msg) := by
  constructor
  · intro hmark
    exact ⟨_, check_refresh_invalid_marker buffer now decode cs rs st msg ctoks
              htrig herr hmark hconn, rfl, rfl, rfl, rfl, rfl, rfl⟩
  · intro hmark
    exact check_refresh_other_error buffer now decode cs rs st msg htrig herr hmark

/-- Witness for C4 at concrete inputs: a refresh failure whose message
carries the InvalidToken marker triggers one reconnect. -/
theorem claim_C4_witness :
    ∃ out,
      check_refresh 60000 1 (fun _ => 7) (fun _ => Except.ok ⟨"na", "nr"⟩)
          (fun _ => Except.error "400 Bad Request \x22error\x22:\x22InvalidToken\x22")
          ⟨⟨"id", "pw"⟩, ⟨"a", "r"⟩, 0, 0⟩ = Except.ok out ∧
        out.connectCalls = 1 ∧ out.refreshCalls = 1 ∧
        out.newState.tokens = ⟨"na", "nr"⟩ ∧
        out.newState.accessExpiry = 7 ∧
        out.newState.refreshExpiry = 7 ∧
        out.newState.credentials = ⟨"id", "pw"⟩ :=
  (claim_C4_invalid_token_reconnect 60000 1 (fun _ => 7)
      (fun _ => Except.ok ⟨"na", "nr"⟩)
      (fun _ => Except.error "400 Bad Request \x22error\x22:\x22InvalidToken\x22")
      ⟨⟨"id", "pw"⟩, ⟨"a", "r"⟩, 0, 0⟩
      "400 Bad Request \x22error\x22:\x22InvalidToken\x22" ⟨"na", "nr"⟩
      (Or.inl (by decide)) rfl rfl).1 (by decide)

/-! ## Claim C5 -/

/-- Counterexample to Claim C5 as stated: with buffer B = 60000 ms, now =
0 and access expiry E = 60000, we have now + B ≥ E, yet `check_refresh`
issues no refreshSession call — the source condition
`access_expiry < now or time_to_expiry < buffer` is strict. -/
theorem claim_C5_counterexample :
    ∃ out,
      check_refresh 60000 0 (fun _ => 7) (fun _ => Except.ok ⟨"na", "nr"⟩)
          (fun _ => Except.ok ⟨"a2", "r2"⟩)
          ⟨⟨"id", "pw"⟩, ⟨"a", "r"⟩, 60000, 90000⟩ = Except.ok out ∧
        out.refreshCalls = 0 ∧ (0 : Int) + 60000 ≥ 60000 := by
  refine ⟨⟨⟨⟨"id", "pw"⟩, ⟨"a", "r"⟩, 60000, 90000⟩, 0, 0, false, none⟩, ?_, rfl, by decide⟩
  exact check_refresh_not_triggered 60000 0 _ _ _ _ (by decide)

/-- Claim C5 (amended): for access expiry E and buffer B ≥ 0, a
`check_refresh` call that can reach the server issues exactly one
refreshSession call iff now + B > E (strictly — the access token has
expired or its time to expiry is strictly below the buffer); repeated calls
while now + B stays at or below the refreshed expiry issue no further
refresh calls. -/
theorem claim_C5_refresh_trigger (buffer now : Int) (decode : String → Int)
    (cs : login_info → Except String session_tokens)
    (rs : String → Except String session_tokens) (st : pds_session_state)
    (toks : session_tokens)
    (hB : 0 ≤ buffer) (hok : rs st.tokens.refreshJwt = Except.ok toks) :
    ∃ out, check_refresh buffer now decode cs rs st = Except.ok out ∧
      (out.refreshCalls = 1 ↔ now + buffer > st.accessExpiry) ∧
      (¬ now + buffer > st.accessExpiry → out.newState = st) ∧
      (∀ now2 rs2, ¬ now2 + buffer > out.newState.accessExpiry →
        ∃ out2, check_refresh buffer now2 decode cs rs2 out.newState =
            Except.ok out2 ∧ out2.refreshCalls = 0) := by
  by_cases h : st.accessExpiry < now ∨ st.accessExpiry - now < buffer
  · have htrig : now + buffer > st.accessExpiry := by
      rcases h with h | h <;> omega
    refine ⟨_, check_refresh_triggered_ok buffer now decode cs rs st toks h hok,
            ?_, ?_, ?_⟩
    · simp [htrig]
    · intro hc; exact absurd htrig hc
    · intro now2 rs2 h2
      refine ⟨_, check_refresh_not_triggered buffer now2 decode cs rs2 _ ?_, rfl⟩
      intro hcon
      rcases hcon with hc | hc <;> omega
  · have hnt : ¬ now + buffer > st.accessExpiry := by
      push_neg at h ⊢
      omega
    refine ⟨_, check_refresh_not_triggered buffer now decode cs rs st h, ?_, ?_, ?_⟩
    · simp [hnt]
    · intro _; rfl
    · intro now2 rs2 h2
      refine ⟨_, check_refresh_not_triggered buffer now2 decode cs rs2 _ ?_, rfl⟩
      intro hcon
      rcases hcon with hc | hc <;> omega

/-- Witness for C5 at concrete inputs: expiry 30000, now 0, buffer 60000
(the spec scenario: the token expires within the buffer, so the first call
refreshes; after the refresh the new expiry is far away and a later call
does not refresh). -/
theorem claim_C5_witness :
    ∃ out,
      check_refresh 60000 0 (fun _ => 10000000)
          (fun _ => Except.ok ⟨"na", "nr"⟩) (fun _ => Except.ok ⟨"a2", "r2"⟩)
          ⟨⟨"id", "pw"⟩, ⟨"a", "r"⟩, 30000, 90000⟩ = Except.ok out ∧
        (out.refreshCalls = 1 ↔ (0 : Int) + 60000 > 30000) ∧
        (¬ (0 : Int) + 60000 > 30000 → out.newState = ⟨⟨"id", "pw"⟩, ⟨"a", "r"⟩, 30000, 90000⟩) ∧
        (∀ now2 rs2, ¬ now2 + 60000 > out.newState.accessExpiry →
          ∃ out2, check_refresh 60000 now2 (fun _ => 10000000)
              (fun _ => Except.ok ⟨"na", "nr"⟩) rs2 out.newState =
              Except.ok out2 ∧ out2.refreshCalls = 0) :=
  claim_C5_refresh_trigger 60000 0 (fun _ => 10000000)
    (fun _ => Except.ok ⟨"na", "nr"⟩) (fun _ => Except.ok ⟨"a2", "r2"⟩)
    ⟨⟨"id", "pw"⟩, ⟨"a", "r"⟩, 30000, 90000⟩ ⟨"a2", "r2"⟩ (by decide) rfl

/-! ## Claim C10 -/

/-- Claim C10: with an empty stored refresh token (no session ever
established) and the default (epoch) access expiry, `check_refresh` logs
the skip message but does not return early: the expiry lies in the past,
so it proceeds to issue the refreshSession POST bearing the empty token. -/
theorem claim_C10_empty_token_refresh (buffer now : Int)
    (decode : String → Int)
    (cs : login_info → Except String session_tokens)
    (rs : String → Except String session_tokens) (st : pds_session_state)
    (toks : session_tokens)
    (hjwt : st.tokens.refreshJwt = "") (hexp : st.accessExpiry = 0)
    (hnow : 0 < now) (hok : rs "" = Except.ok toks) :
    ∃ out, check_refresh buffer now decode cs rs st = Except.ok out ∧
      out.skipLogged = true ∧ out.refreshCalls = 1 ∧
      out.refreshBearer = some "" := by
  have htrig : st.accessExpiry < now ∨ st.accessExpiry - now < buffer :=
    Or.inl (by omega)
  have hok2 : rs st.tokens.refreshJwt = Except.ok toks := by rw [hjwt]; exact hok
  refine ⟨_, check_refresh_triggered_ok buffer now decode cs rs st toks htrig hok2,
          ?_, rfl, ?_⟩
  · simp [hjwt]
  · simp [hjwt]

/-- Witness for C10 at concrete inputs. -/
theorem claim_C10_witness :
    ∃ out,
      check_refresh 60000 5 (fun _ => 7) (fun _ => Except.ok ⟨"na", "nr"⟩)
          (fun _ => Except.ok ⟨"a2", "r2"⟩)
          ⟨⟨"id", "pw"⟩, ⟨"", ""⟩, 0, 0⟩ = Except.ok out ∧
        out.skipLogged = true ∧ out.refreshCalls = 1 ∧
        out.refreshBearer = some "" :=
  claim_C10_empty_token_refresh 60000 5 (fun _ => 7)
    (fun _ => Except.ok ⟨"na", "nr"⟩) (fun _ => Except.ok ⟨"a2", "r2"⟩)
    ⟨⟨"id", "pw"⟩, ⟨"", ""⟩, 0, 0⟩ ⟨"a2", "r2"⟩ rfl rfl (by decide) rfl

/-! ## Claim C2 -/

/-- Claim C2 (code-bug evaluation): with is_ready = false and dry_run =
false, `send_report` logs the not-ready error yet still issues the
createReport HTTP POST — the not-ready block in the source lacks a return,
although its own log line says the report is skipped. -/
theorem claim_C2_not_ready_still_posts :
    (send_report_run false false [.success ()]).notReadyLogged = true ∧
    (send_report_run false false [.success ()]).httpAttempts = 1 ∧
    (send_report_run false false [.success ()]).reportCounted = true := by
  decide

/-! ## Claim C3 -/

/-- Counterexample to Claim C3 as stated: five consecutive read-EOF faults
make `create_record` exit its retry loop and return the default-initialized
response — no error surfaces to the caller; likewise a non-EOF exception in
`send_report` does not propagate: it is counted into report_error and the
call returns normally. -/
theorem claim_C3_counterexample :
    create_record_run 0 (0 : Nat)
        (List.replicate 5 (attempt.eofFault)) = callResult.ok 0 ∧
    (send_report_run true false [.excFault "HTTP 400"]).reportErrorCounted = true := by
  decide

/-- Claim C3 (amended): a transient read-EOF fault is retried in-call up to
a total of five attempts in every operation; after the fifth EOF the error
surfaces to the caller in do_post and get_record, while create_record,
put_record, do_get and emit_event exit the loop and return the
default-initialized response without surfacing an error, and send_report
counts report_error.  Any other exception ends the call at once: it
propagates to the caller in do_post, create_record, put_record, get_record,
do_get and emit_event, while send_report logs it and counts report_error
instead of propagating. -/
theorem claim_C3_retry_semantics (v dflt : Nat) (m : String) (k : Nat)
    (hk : k ≤ 4) :
    (do_post_run 0 dflt (List.replicate 5 .eofFault) = .thrown eofMsg) ∧
    (get_record_run 0 dflt (List.replicate 5 .eofFault) = .thrown eofMsg) ∧
    (create_record_run 0 dflt (List.replicate 5 .eofFault) = .ok dflt) ∧
    (put_record_run 0 dflt (List.replicate 5 .eofFault) = .ok dflt) ∧
    (do_get_run 0 dflt (List.replicate 5 .eofFault) = .ok dflt) ∧
    ((emit_event_run 0 0 dflt (List.replicate 5 .eofFault)).1 = .ok dflt) ∧
    ((send_report_run true false (List.replicate 5 .eofFault)).reportErrorCounted = true) ∧
    (do_post_run 0 dflt (List.replicate k .eofFault ++ [.success v]) = .ok v) ∧
    (get_record_run 0 dflt (List.replicate k .eofFault ++ [.success v]) = .ok v) ∧
    (create_record_run 0 dflt (List.replicate k .eofFault ++ [.success v]) = .ok v) ∧
    (put_record_run 0 dflt (List.replicate k .eofFault ++ [.success v]) = .ok v) ∧
    (do_get_run 0 dflt (List.replicate k .eofFault ++ [.success v]) = .ok v) ∧
    ((emit_event_run 0 0 dflt (List.replicate k .eofFault ++ [.success v])).1 = .ok v) ∧
    ((send_report_run true false (List.replicate k .eofFault ++ [.success ()])).reportCounted = true) ∧
    (∀ rest, do_post_run 0 dflt (.excFault m :: rest) = .thrown m) ∧
    (∀ rest, get_record_run 0 dflt (.excFault m :: rest) = .thrown m) ∧
    (∀ rest, create_record_run 0 dflt (.excFault m :: rest) = .thrown m) ∧
    (∀ rest, put_record_run 0 dflt (.excFault m :: rest) = .thrown m) ∧
    (∀ rest, do_get_run 0 dflt (.excFault m :: rest) = .thrown m) ∧
    (∀ rest, (emit_event_run 0 0 dflt (.excFault m :: rest)).1 = .thrown m) ∧
    (∀ rest, (send_report_run true false (.excFault m :: rest)).reportErrorCounted = true ∧
             (send_report_run true false (.excFault m :: rest)).httpAttempts = 1) := by
  refine ⟨?_, ?_, ?_, ?_, ?_, ?_, ?_, ?_, ?_, ?_, ?_, ?_, ?_, ?_,
          ?_, ?_, ?_, ?_, ?_, ?_, ?_⟩
  · simp [do_post_run, List.replicate]
  · simp [get_record_run, List.replicate]
  · simp [create_record_run, List.replicate]
  · simp [put_record_run, List.replicate]
  · simp [do_get_run, List.replicate]
  · simp [emit_event_run, List.replicate]
  · simp [send_report_run, send_report_loop, List.replicate]
  · interval_cases k <;> simp [do_post_run, List.replicate]
  · interval_cases k <;> simp [get_record_run, List.replicate]
  · interval_cases k <;> simp [create_record_run, List.replicate]
  · interval_cases k <;> simp [put_record_run, List.replicate]
  · interval_cases k <;> simp [do_get_run, List.replicate]
  · interval_cases k <;> simp [emit_event_run, List.replicate]
  · interval_cases k <;> simp [send_report_run, send_report_loop, List.replicate]
  · intro rest; simp [do_post_run]
  · intro rest; simp [get_record_run]
  · intro rest; simp [create_record_run]
  · intro rest; simp [put_record_run]
  · intro rest; simp [do_get_run]
  · intro rest; simp [emit_event_run]
  · intro rest; simp [send_report_run, send_report_loop]

/-- Witness for C3 at concrete inputs: three EOF faults followed by a
success yield the successful response in do_post. -/
theorem claim_C3_witness :
    do_post_run 0 0 (List.replicate 3 .eofFault ++ [.success 7]) = .ok 7 :=
  (claim_C3_retry_semantics 7 0 "HTTP 400" 3 (by decide)).2.2.2.2.2.2.2.1

/-! ## Claim C9 -/

/-- Claim C9: in dry-run mode an emission is short-circuited before any
HTTP request — send_report issues no createReport POST and the guarded emit
path issues no emitEvent POST — an info log is written, and the call
returns normally as a successful no-op with no error counted, whatever the
readiness state. -/
theorem claim_C9_dry_run (is_ready : Bool) (script : List (attempt Unit))
    (dflt : Nat) (script2 : List (attempt Nat)) :
    (send_report_run is_ready true script).httpAttempts = 0 ∧
    (send_report_run is_ready true script).dryRunLogged = true ∧
    (send_report_run is_ready true script).reportErrorCounted = false ∧
    (guarded_emit_event true dflt script2).2 = 0 ∧
    (guarded_emit_event true dflt script2).1 = .ok dflt := by
  refine ⟨?_, ?_, ?_, ?_, ?_⟩ <;> simp [send_report_run, guarded_emit_event]

/-! ## Claim C1 -/

/-- Claim C1 (code-bug evaluation): for a redirect hop to the fresh,
well-formed, non-whitelisted URL [97] (never counted, parser succeeds,
empty whitelist) with a matching rule available, the callback appends the
URL to the chain but returns false (stop following) and never enqueues to
the action router — the source tests `should_process_uri(url)` without the
negation its own comment (already processed, or whitelisted) and the
admission check in operator()(embed::external) use.  Conversely, for the
same URL whitelisted, the callback keeps following and enqueues a match. -/
theorem claim_C1_redirect_callback_bug :
    ((on_url_redirect (fun t => some t) ⟨[], []⟩ (fun _ _ => ["rule1"])
        [] [[104]] [104] 301 [97]).continueFollowing = false) ∧
    ((on_url_redirect (fun t => some t) ⟨[], []⟩ (fun _ _ => ["rule1"])
        [] [[104]] [104] 301 [97]).actionsEnqueued = 0) ∧
    ((on_url_redirect (fun t => some t) ⟨[], []⟩ (fun _ _ => ["rule1"])
        [] [[104]] [104] 301 [97]).chain = [[104], [97]]) ∧
    ((uri_seen [] [97]).1 = false) ∧
    ((should_process_uri (fun t => some t) ⟨[], []⟩ [97]).process = true) ∧
    ((on_url_redirect (fun t => some t) ⟨[], [[97]]⟩ (fun _ _ => ["rule1"])
        [] [[104]] [104] 301 [97]).continueFollowing = true) ∧
    ((on_url_redirect (fun t => some t) ⟨[], [[97]]⟩ (fun _ _ => ["rule1"])
        [] [[104]] [104] 301 [97]).actionsEnqueued = 1) ∧
    ((should_process_uri (fun t => some t) ⟨[], [[97]]⟩ [97]).process = false) := by
  refine ⟨rfl, rfl, rfl, rfl, rfl, rfl, rfl, rfl⟩

/-! ## Claim C7 -/

/-- Claim C7: for an external embed admitted by the redirect follower (URI
not yet counted and to be processed), exactly one of the three termination
outcomes (completed / overflow / error) is recorded whatever the fetch
outcome, and the hop count is observed into the histogram; when the chain
of N hops exceeds the limit L the outcome is overflow and exactly one
account report carrying the redirect chain is enqueued, and when N ≤ L
(and no fault occurs) the outcome is completed. -/
theorem claim_C7_termination_outcomes (parse : Url → Option Url)
    (cfg : checker_config) (counts : List (Url × Nat)) (uri : Url)
    (hops : List Url) (limit : Nat)
    (hfresh : counts.lookup uri = none)
    (hproc : (should_process_uri parse cfg uri).process = true) :
    (∀ o, (process_external parse cfg counts uri hops limit o).completedCount +
          (process_external parse cfg counts uri hops limit o).overflowCount +
          (process_external parse cfg counts uri hops limit o).errorCount = 1 ∧
          (process_external parse cfg counts uri hops limit o).hopsObserved.isSome = true) ∧
    (limit < hops.length →
      (process_external parse cfg counts uri hops limit
          (redirect_outcome hops limit)).overflowCount = 1 ∧
      (process_external parse cfg counts uri hops limit
          (redirect_outcome hops limit)).reportsEnqueued = 1 ∧
      (process_external parse cfg counts uri hops limit
          (redirect_outcome hops limit)).reportChain = some (uri :: hops.take limit)) ∧
    (hops.length ≤ limit →
      (process_external parse cfg counts uri hops limit
          (redirect_outcome hops limit)).completedCount = 1 ∧
      (process_external parse cfg counts uri hops limit
          (redirect_outcome hops limit)).reportsEnqueued = 0) := by
  have hseen : (uri_seen counts uri).1 = false := by
    simp [uri_seen, hfresh]
  refine ⟨?_, ?_, ?_⟩
  · intro o
    cases o <;> simp [process_external, hseen, hproc]
  · intro hover
    have : redirect_outcome hops limit = .constraintExceeded := by
      simp [redirect_outcome, hover]
    rw [this]
    simp [process_external, hseen, hproc]
  · intro hunder
    have : redirect_outcome hops limit = .success := by
      simp [redirect_outcome]
      omega
    rw [this]
    simp [process_external, hseen, hproc]

/-- Witness for C7 at concrete inputs: two hops against limit 1 overflow
and enqueue one report carrying the chain; the same URL against limit 5
completes. -/
theorem claim_C7_witness :
    (process_external (fun t => some t) ⟨[], []⟩ [] [97] [[98], [99]] 1
        (redirect_outcome [[98], [99]] 1)).overflowCount = 1 ∧
    (process_external (fun t => some t) ⟨[], []⟩ [] [97] [[98], [99]] 1
        (redirect_outcome [[98], [99]] 1)).reportsEnqueued = 1 ∧
    (process_external (fun t => some t) ⟨[], []⟩ [] [97] [[98], [99]] 1
        (redirect_outcome [[98], [99]] 1)).reportChain =
      some ([97] :: ([[98], [99]] : List Url).take 1) :=
  (claim_C7_termination_outcomes (fun t => some t) ⟨[], []⟩ [] [97]
    [[98], [99]] 1 rfl rfl).2.1 (by decide)

/-! ## Claim C8 -/

/-- Claim C8: `should_process_uri` first strips a trailing three-byte UTF-8
horizontal-ellipsis suffix when present, then parses the result, then
strips the configured host prefix from the host, and returns false exactly
when the URL is malformed (counted as malformed) or the resulting host is
whitelisted (counted as whitelist-skipped); it returns true otherwise. -/
theorem claim_C8_should_process_uri (parse : Url → Option Url)
    (cfg : checker_config) (uri : Url) :
    ((should_process_uri parse cfg uri).process = false ↔
      (parse (if UrlSuffix.isSuffixOf uri then
          uri.take (uri.length - UrlSuffix.length) else uri) = none ∨
       ∃ h0, parse (if UrlSuffix.isSuffixOf uri then
          uri.take (uri.length - UrlSuffix.length) else uri) = some h0 ∧
         cfg.whitelist.contains
           (if cfg.hostPfx.isPrefixOf h0 then h0.drop cfg.hostPfx.length else h0) = true)) ∧
    ((should_process_uri parse cfg uri).malformedCounted = true ↔
      parse (if UrlSuffix.isSuffixOf uri then
        uri.take (uri.length - UrlSuffix.length) else uri) = none) ∧
    ((should_process_uri parse cfg uri).whitelistSkipCounted = true ↔
      ∃ h0, parse (if UrlSuffix.isSuffixOf uri then
          uri.take (uri.length - UrlSuffix.length) else uri) = some h0 ∧
        cfg.whitelist.contains
          (if cfg.hostPfx.isPrefixOf h0 then h0.drop cfg.hostPfx.length else h0) = true) ∧
    UrlSuffix.length = 3 := by
  rcases hp : parse (if UrlSuffix.isSuffixOf uri then
      uri.take (uri.length - UrlSuffix.length) else uri) with _ | h0
  · simp only [should_process_uri]
    rw [hp]
    simp [UrlSuffix]
  · simp only [should_process_uri]
    rw [hp]
    by_cases hw : (if cfg.hostPfx <+: h0 then
        h0.drop cfg.hostPfx.length else h0) ∈ cfg.whitelist
    · simp [hw, UrlSuffix]
    · simp [hw, UrlSuffix]

/-! ## Claim C6 -/

theorem alert_needed_iff (c F : Nat) (hF : 2 ≤ F) :
    alert_needed c F = true ↔ ∃ k, 1 ≤ k ∧ F ^ k = c := by
  unfold alert_needed
  rw [List.any_eq_true]
  constructor
  · rintro ⟨i, _, hpi⟩
    exact ⟨i + 1, Nat.le_add_left 1 i, by simpa using hpi⟩
  · rintro ⟨k, hk1, hpow⟩
    have hklt : k < F ^ k := Nat.lt_pow_self hF k
    refine ⟨k - 1, List.mem_range.mpr (by omega), ?_⟩
    have hk : k - 1 + 1 = k := by omega
    rw [hk, hpow]
    simp

theorem alert_needed_one (F : Nat) (hF : 2 ≤ F) : alert_needed 1 F = false := by
  rw [← Bool.not_eq_true, alert_needed_iff 1 F hF]
  rintro ⟨k, hk1, hpow⟩
  have hle : F ≤ F ^ k := Nat.le_self_pow (by omega) F
  omega

theorem alert_card (F N : Nat) (hF : 2 ≤ F) :
    ((Finset.Icc 1 N).filter fun c => alert_needed c F = true).card =
      Nat.log F N := by
  rcases Nat.eq_zero_or_pos N with hN | hN
  · subst hN
    rw [Finset.Icc_eq_empty (by omega)]
    simp
  · have hN0 : N ≠ 0 := by omega
    have key : (Finset.Icc 1 (Nat.log F N)).card =
        ((Finset.Icc 1 N).filter fun c => alert_needed c F = true).card := by
      apply Finset.card_bij (fun k _ => F ^ k)
      · intro k hk
        rcases Finset.mem_Icc.mp hk with ⟨hk1, hk2⟩
        refine Finset.mem_filter.mpr
          ⟨Finset.mem_Icc.mpr ⟨Nat.one_le_pow _ _ (by omega),
            (Nat.pow_le_iff_le_log hF hN0).mpr hk2⟩,
           (alert_needed_iff _ F hF).mpr ⟨k, hk1, rfl⟩⟩
      · intro a ha b hb hab
        exact Nat.pow_right_injective hF hab
      · intro c hc
        rcases Finset.mem_filter.mp hc with ⟨hc1, hc2⟩
        rcases (alert_needed_iff c F hF).mp hc2 with ⟨k, hk1, hpow⟩
        have hck : F ^ k ≤ N := hpow ▸ (Finset.mem_Icc.mp hc1).2
        exact ⟨k, Finset.mem_Icc.mpr ⟨hk1, (Nat.pow_le_iff_le_log hF hN0).mp hck⟩, hpow⟩
    rw [← key, Nat.card_Icc]
    omega

theorem image_seen_alerts_fst (F n : Nat) :
    (image_seen_alerts F n).1 = if n = 0 then [] else [(cid0, n)] := by
  induction n with
  | zero => rfl
  | succ m ih =>
      rcases Nat.eq_zero_or_pos m with hm | hm
      · subst hm
        rfl
      · have hm0 : m ≠ 0 := by omega
        simp only [image_seen_alerts, ih, if_neg hm0]
        simp [image_seen, List.lookup, bump_count, cid0]

theorem image_seen_alerts_snd (F : Nat) (hF : 2 ≤ F) (n : Nat) :
    (image_seen_alerts F n).2 =
      ((Finset.Icc 1 n).filter fun c => alert_needed c F = true).card := by
  induction n with
  | zero =>
      rw [Finset.Icc_eq_empty (by omega)]
      simp [image_seen_alerts]
  | succ m ih =>
      have hstep : (image_seen_alerts F (m + 1)).2 =
          (image_seen_alerts F m).2 + if alert_needed (m + 1) F then 1 else 0 := by
        rcases Nat.eq_zero_or_pos m with hm | hm
        · subst hm
          simp [image_seen_alerts, image_seen, alert_needed_one F hF]
        · have hm0 : m ≠ 0 := by omega
          have hfst := image_seen_alerts_fst F m
          rw [if_neg hm0] at hfst
          simp only [image_seen_alerts]
          rw [hfst]
          simp [image_seen, List.lookup, bump_count, cid0]
      have hins : Finset.Icc 1 (m + 1) = insert (m + 1) (Finset.Icc 1 m) := by
        ext x
        simp only [Finset.mem_Icc, Finset.mem_insert]
        omega
      have hnotmem : (m + 1) ∉ (Finset.Icc 1 m).filter
          fun c => alert_needed c F = true := by
        intro hmem
        rcases Finset.mem_filter.mp hmem with ⟨h1, _⟩
        rcases Finset.mem_Icc.mp h1 with ⟨_, h2⟩
        omega
      rw [hstep, ih, hins, Finset.filter_insert]
      by_cases ha : alert_needed (m + 1) F = true
      · rw [if_pos ha, if_pos ha, Finset.card_insert_of_not_mem hnotmem]
      · rw [if_neg ha, if_neg ha]
        omega

/-- Claim C6: the alert predicate holds exactly when the new count is a
power of the factor (F, F squared, F cubed, dots), so a key observed with
counts 1, 2, dots, N through `image_seen` fires exactly log_F(N) alerts
(spec-modelled `alert_needed`; its definition is not under src). -/
theorem claim_C6_alert_milestones (F N c : Nat) (hF : 2 ≤ F) :
    (alert_needed c F = true ↔ ∃ k, 1 ≤ k ∧ F ^ k = c) ∧
    (image_seen_alerts F N).2 = Nat.log F N :=
  ⟨alert_needed_iff c F hF,
   by rw [image_seen_alerts_snd F hF N, alert_card F N hF]⟩

/-- Witness for C6 at the spec scenario (factor 4, counts 1..17, checking
count 16): alerts fire at 4 and 16 only, so log_4(17) = 2 alerts. -/
theorem claim_C6_witness :
    (alert_needed 16 4 = true ↔ ∃ k, 1 ≤ k ∧ 4 ^ k = 16) ∧
    (image_seen_alerts 4 17).2 = Nat.log 4 17 :=
  claim_C6_alert_milestones 4 17 16 (by decide)

end bsky
